import Mathlib

/-
Verification of the CKKS encrypted-vector wrapper module
(`federatedml/secureprotol/fate_ckks.py`).

The module is a thin layer over the tenseal cryptographic backend.  The
backend is external, so it is modelled abstractly: ciphertexts, contexts,
secret keys, plaintext operands and serialized ciphertext bytes are type
parameters, and the primitive backend operations are fields of a `Backend`
structure.  Backend operations that can raise a Python exception are
modelled with `Except PyError`.

Python reference semantics for `CKKSEncryptedVector` objects (the
in-place-mutation / fresh-object distinction of the arithmetic operators)
is modelled by a heap: a list of vector values indexed by references,
with `List.set` for in-place field assignment and list append for
construction of a new object.
-/

/-- A Python exception value as it occurs in this module: the runtime
exception class together with `str(e)`.  `noiseBudgetExhausted` is raised
nowhere in the source; it is modelled from the spec's error taxonomy (§7,
a typed `NoiseBudgetExhausted` failure) solely so that statements about
that taxon can be expressed. -/
inductive PyError where
  | runtimeError (msg : String)
  | valueError (msg : String)
  | typeError (msg : String)
  | noiseBudgetExhausted (msg : String)
deriving DecidableEq, Repr

/-- Python `str(e)` for the exceptions above. -/
def PyError.pyStr : PyError → String
  | .runtimeError msg => msg
  | .valueError msg => msg
  | .typeError msg => msg
  | .noiseBudgetExhausted msg => msg

/-- Whether the exception is (an instance of) Python's `RuntimeError`,
the class matched by the `except RuntimeError as e` clauses. -/
def PyError.isRuntimeError : PyError → Bool
  | .runtimeError _ => true
  | _ => false

/-- A real or complex Python number, as a pair of a real and an imaginary
component (rationals stand in for floats; no claim here is about rounding).
`np.isreal` tests `im = 0`. -/
structure PyNum where
  re : Rat
  im : Rat
deriving DecidableEq, Repr

/-- Model of the backend's `context.serialize(save_public_key=…,
save_secret_key=…, save_relin_keys=…, save_galois_keys=…)`: per the backend
capability interface the produced bytes carry exactly the context and the
material selected by the four flags, so the bytes are modelled transparently
as the context together with those flags. -/
structure CtxBytes (Ctx : Type) where
  ctx : Ctx
  save_public_key : Bool
  save_secret_key : Bool
  save_relin_keys : Bool
  save_galois_keys : Bool
deriving DecidableEq, Repr

/-- Backend `context.serialize` with its four keyword flags. -/
def Context.serialize {Ctx : Type} (ctx : Ctx)
    (save_public_key save_secret_key save_relin_keys save_galois_keys : Bool) :
    CtxBytes Ctx :=
  ⟨ctx, save_public_key, save_secret_key, save_relin_keys, save_galois_keys⟩

/-- The abstract tenseal backend consumed by the module.  `Ct` = ciphertext
(`ts.CKKSVector`), `Ctx` = context, `Sk` = secret key, `Plain` = a plaintext
operand of the arithmetic operators, `Cb` = serialized ciphertext bytes.
Each primitive that can raise returns `Except PyError`. -/
structure Backend (Ct Ctx Sk Plain Cb : Type) where
  addCC : Ct → Ct → Except PyError Ct
  addCP : Ct → Plain → Except PyError Ct
  subCC : Ct → Ct → Except PyError Ct
  subCP : Ct → Plain → Except PyError Ct
  subPC : Plain → Ct → Except PyError Ct
  mulCC : Ct → Ct → Except PyError Ct
  mulCP : Ct → Plain → Except PyError Ct
  ckks_vector : Ctx → List PyNum → Except PyError Ct
  secret_key : Ctx → Sk
  decryptVec : Ct → Sk → List Rat
  serializeCt : Ct → Cb
  ckks_vector_from : Ctx → Cb → Ct
  context_from : CtxBytes Ctx → Ctx

/-- `CKKSEncryptedVector.__init__`: a tenseal ciphertext, the context it was
produced under, and the multiplicative depth counter (default 0 at the
call sites that encrypt). -/
structure CKKSEncryptedVector (Ct Ctx : Type) where
  encrypted_vector : Ct
  context : Ctx
  depth : Nat
deriving DecidableEq, Repr

/-- The `other` argument of a binary operator: either another
`CKKSEncryptedVector` (the value of that object) or a plaintext operand;
the source discriminates by `isinstance(other, CKKSEncryptedVector)`. -/
inductive Operand (Ct Ctx Plain : Type) where
  | enc (v : CKKSEncryptedVector Ct Ctx)
  | plain (p : Plain)
deriving DecidableEq, Repr

namespace CKKSEncryptedVector

variable {Ct Ctx Sk Plain Cb : Type}

/-- `CKKSEncryptedVector.is_transparent_ciphertext_error`:
`str(e) == "result ciphertext is transparent"`. -/
def is_transparent_ciphertext_error (e : PyError) : Bool :=
  e.pyStr == "result ciphertext is transparent"

/-- `CKKSEncryptedVector.__add__`.  Ciphertext-ciphertext addition is
attempted first; `except RuntimeError as e` catches only `RuntimeError`,
and if `is_transparent_ciphertext_error(e)` the recovery
`self.__encrypted_vector += (other.__encrypted_vector +
ts.ckks_vector(other.__context, [0]))` runs, otherwise `raise e`.
The result is the new value of `self` (the source mutates `self` and
returns it; the heap layer below accounts for the aliasing). -/
def __add__ (B : Backend Ct Ctx Sk Plain Cb) (self : CKKSEncryptedVector Ct Ctx)
    (other : Operand Ct Ctx Plain) : Except PyError (CKKSEncryptedVector Ct Ctx) :=
  match other with
  | .enc o =>
    match B.addCC self.encrypted_vector o.encrypted_vector with
    | .ok v => .ok { self with encrypted_vector := v }
    | .error e =>
      if e.isRuntimeError then
        if is_transparent_ciphertext_error e then
          match B.ckks_vector o.context [⟨0, 0⟩] with
          | .error e2 => .error e2
          | .ok z =>
            match B.addCC o.encrypted_vector z with
            | .error e2 => .error e2
            | .ok t =>
              match B.addCC self.encrypted_vector t with
              | .error e2 => .error e2
              | .ok v => .ok { self with encrypted_vector := v }
        else .error e
      else .error e
  | .plain p =>
    match B.addCP self.encrypted_vector p with
    | .error e => .error e
    | .ok v => .ok { self with encrypted_vector := v }

/-- `CKKSEncryptedVector.__sub__`: same shape as `__add__`, with the
recovery `self.__encrypted_vector -= (other.__encrypted_vector +
ts.ckks_vector(other.__context, [0]))`. -/
def __sub__ (B : Backend Ct Ctx Sk Plain Cb) (self : CKKSEncryptedVector Ct Ctx)
    (other : Operand Ct Ctx Plain) : Except PyError (CKKSEncryptedVector Ct Ctx) :=
  match other with
  | .enc o =>
    match B.subCC self.encrypted_vector o.encrypted_vector with
    | .ok v => .ok { self with encrypted_vector := v }
    | .error e =>
      if e.isRuntimeError then
        if is_transparent_ciphertext_error e then
          match B.ckks_vector o.context [⟨0, 0⟩] with
          | .error e2 => .error e2
          | .ok z =>
            match B.addCC o.encrypted_vector z with
            | .error e2 => .error e2
            | .ok t =>
              match B.subCC self.encrypted_vector t with
              | .error e2 => .error e2
              | .ok v => .ok { self with encrypted_vector := v }
        else .error e
      else .error e
  | .plain p =>
    match B.subCP self.encrypted_vector p with
    | .error e => .error e
    | .ok v => .ok { self with encrypted_vector := v }

/-- `CKKSEncryptedVector.__rsub__`: `self.__encrypted_vector =
other.__encrypted_vector - self.__encrypted_vector` (ciphertext case) or
`other - self.__encrypted_vector` (plaintext case); `return self`. -/
def __rsub__ (B : Backend Ct Ctx Sk Plain Cb) (self : CKKSEncryptedVector Ct Ctx)
    (other : Operand Ct Ctx Plain) : Except PyError (CKKSEncryptedVector Ct Ctx) :=
  match other with
  | .enc o =>
    match B.subCC o.encrypted_vector self.encrypted_vector with
    | .error e => .error e
    | .ok v => .ok { self with encrypted_vector := v }
  | .plain p =>
    match B.subPC p self.encrypted_vector with
    | .error e => .error e
    | .ok v => .ok { self with encrypted_vector := v }

/-- The backend multiplication performed inside `__mul__`'s `try` block:
ciphertext-times-ciphertext or ciphertext-times-plaintext by
`isinstance`. -/
def mulBackendResult (B : Backend Ct Ctx Sk Plain Cb)
    (self : CKKSEncryptedVector Ct Ctx) (other : Operand Ct Ctx Plain) :
    Except PyError Ct :=
  match other with
  | .enc o => B.mulCC self.encrypted_vector o.encrypted_vector
  | .plain p => B.mulCP self.encrypted_vector p

/-- `CKKSEncryptedVector.__mul__`: on success a new vector is constructed
with `depth = self.__depth + 1`.  A `ValueError` is caught, logged at debug
level (`Scale out of bound, current depth = …`) and re-raised unchanged by
`raise e`; any other exception is not caught — either way the backend error
propagates to the caller as-is. -/
def __mul__ (B : Backend Ct Ctx Sk Plain Cb) (self : CKKSEncryptedVector Ct Ctx)
    (other : Operand Ct Ctx Plain) : Except PyError (CKKSEncryptedVector Ct Ctx) :=
  match mulBackendResult B self other with
  | .ok value => .ok ⟨value, self.context, self.depth + 1⟩
  | .error e => .error e

end CKKSEncryptedVector

/-- A Python object reference (heap index). -/
abbrev Ref := Nat

/-- The heap of live `CKKSEncryptedVector` objects: a reference is an index
into this list. -/
abbrev Store (Ct Ctx : Type) := List (CKKSEncryptedVector Ct Ctx)

/-- An operator argument as seen through Python's reference semantics:
either a reference to another `CKKSEncryptedVector` object on the heap, or
a plaintext value. -/
inductive PyOperand (Plain : Type) where
  | ref (r : Ref)
  | plain (p : Plain)
deriving DecidableEq, Repr

namespace CKKSEncryptedVector

variable {Ct Ctx Sk Plain Cb : Type}

/-- Read the current value of an operator argument from the heap.  A
dangling reference cannot arise for references produced by this API; it is
mapped to a `TypeError` only to keep the function total. -/
def getOperand (σ : Store Ct Ctx) : PyOperand Plain → Except PyError (Operand Ct Ctx Plain)
  | .ref r =>
    match σ[r]? with
    | some b => .ok (.enc b)
    | none => .error (.typeError "invalid reference")
  | .plain p => .ok (.plain p)

/-- `a + b` at the heap level: `__add__` assigns into `self.__encrypted_vector`
and ends in `return self`, so the object at `ra` is overwritten in place and
the very same reference `ra` is handed back to the caller. -/
def addRef (B : Backend Ct Ctx Sk Plain Cb) (σ : Store Ct Ctx) (ra : Ref)
    (other : PyOperand Plain) : Except PyError (Store Ct Ctx × Ref) :=
  match σ[ra]? with
  | none => .error (.typeError "invalid reference")
  | some a =>
    match getOperand σ other with
    | .error e => .error e
    | .ok ov =>
      match __add__ B a ov with
      | .error e => .error e
      | .ok a2 => .ok (σ.set ra a2, ra)

/-- `a - b` at the heap level: same in-place update and `return self` as
`addRef`. -/
def subRef (B : Backend Ct Ctx Sk Plain Cb) (σ : Store Ct Ctx) (ra : Ref)
    (other : PyOperand Plain) : Except PyError (Store Ct Ctx × Ref) :=
  match σ[ra]? with
  | none => .error (.typeError "invalid reference")
  | some a =>
    match getOperand σ other with
    | .error e => .error e
    | .ok ov =>
      match __sub__ B a ov with
      | .error e => .error e
      | .ok a2 => .ok (σ.set ra a2, ra)

/-- `b - a` dispatched to `a.__rsub__(b)` at the heap level: `__rsub__` also
assigns into `self.__encrypted_vector` and ends in `return self`, so the
object at `ra` is overwritten and the same reference returned. -/
def rsubRef (B : Backend Ct Ctx Sk Plain Cb) (σ : Store Ct Ctx) (ra : Ref)
    (other : PyOperand Plain) : Except PyError (Store Ct Ctx × Ref) :=
  match σ[ra]? with
  | none => .error (.typeError "invalid reference")
  | some a =>
    match getOperand σ other with
    | .error e => .error e
    | .ok ov =>
      match __rsub__ B a ov with
      | .error e => .error e
      | .ok a2 => .ok (σ.set ra a2, ra)

/-- `a * b` at the heap level: `__mul__` ends in
`return CKKSEncryptedVector(value, self.__context, depth=self.__depth + 1)`,
a freshly constructed object: it is appended to the heap and its fresh
reference returned; no existing object is written. -/
def mulRef (B : Backend Ct Ctx Sk Plain Cb) (σ : Store Ct Ctx) (ra : Ref)
    (other : PyOperand Plain) : Except PyError (Store Ct Ctx × Ref) :=
  match σ[ra]? with
  | none => .error (.typeError "invalid reference")
  | some a =>
    match getOperand σ other with
    | .error e => .error e
    | .ok ov =>
      match __mul__ B a ov with
      | .error e => .error e
      | .ok c => .ok (σ ++ [c], σ.length)

/-- `CKKSEncryptedVector.__getstate__`: the triple of serialized ciphertext
bytes, context bytes saved with public key and relinearization keys but
neither secret key nor galois keys, and the depth counter. -/
def __getstate__ (B : Backend Ct Ctx Sk Plain Cb)
    (self : CKKSEncryptedVector Ct Ctx) : Cb × CtxBytes Ctx × Nat :=
  (B.serializeCt self.encrypted_vector,
   Context.serialize self.context true false true false,
   self.depth)

/-- `CKKSEncryptedVector.__setstate__`: rehydrates the context from the
lightweight context bytes first, then the ciphertext against that context
(`ts.ckks_vector_from(self.__context, encrypted_vector_bytes)`), and
restores the stored depth. -/
def __setstate__ (B : Backend Ct Ctx Sk Plain Cb) (state : Cb × CtxBytes Ctx × Nat) :
    CKKSEncryptedVector Ct Ctx :=
  let (encrypted_vector_bytes, lightweight_context_bytes, depth) := state
  let context := B.context_from lightweight_context_bytes
  ⟨B.ckks_vector_from context encrypted_vector_bytes, context, depth⟩

end CKKSEncryptedVector

/-- `CKKSPublicKey`: owns one public context. -/
structure CKKSPublicKey (Ctx : Type) where
  public_context : Ctx
deriving DecidableEq, Repr

/-- `CKKSPrivateKey`: owns one context with secret material. -/
structure CKKSPrivateKey (Ctx : Type) where
  context : Ctx
deriving DecidableEq, Repr

/-- The `values` argument of `CKKSPublicKey.encrypt`.  The source classifies
the runtime type by `isinstance(obj, (np.generic, float, int, str, bytes,
complex))`; here the scalar/sequence distinction is the constructor tag. -/
inductive EncryptValues where
  | scalar (n : PyNum)
  | vector (ns : List PyNum)
deriving DecidableEq, Repr

namespace CKKSPublicKey

variable {Ct Ctx Sk Plain Cb : Type}

/-- `CKKSPublicKey.__only_real_number`: `np.all(np.isreal(value))`, i.e.
every component has zero imaginary part. -/
def __only_real_number (value : List PyNum) : Bool :=
  value.all (fun n => n.im == 0)

/-- `CKKSPublicKey.encrypt`: a scalar is first wrapped into a length-1 list;
if any component is non-real, `ValueError("values should only contain real
number")` is raised (the spec's `ValidationError`); otherwise the list is
encrypted under this key's public context into a depth-0
`CKKSEncryptedVector`. -/
def encrypt (B : Backend Ct Ctx Sk Plain Cb) (self : CKKSPublicKey Ctx)
    (values : EncryptValues) : Except PyError (CKKSEncryptedVector Ct Ctx) :=
  let values : List PyNum :=
    match values with
    | .scalar n => [n]
    | .vector ns => ns
  if !(__only_real_number values) then
    .error (.valueError "values should only contain real number")
  else
    match B.ckks_vector self.public_context values with
    | .error e => .error e
    | .ok ckks_vector => .ok ⟨ckks_vector, self.public_context, 0⟩

/-- `CKKSPublicKey.__getstate__`: context serialized with
`save_public_key=True, save_secret_key=False, save_relin_keys=True,
save_galois_keys=False`. -/
def __getstate__ (self : CKKSPublicKey Ctx) : CtxBytes Ctx :=
  Context.serialize self.public_context true false true false

end CKKSPublicKey

/-- The argument handed to `CKKSPrivateKey.decrypt`: either a
`CKKSEncryptedVector` object or an object of any other runtime type
(represented by an arbitrary tag), as classified by `isinstance`. -/
inductive DecryptArg (Ct Ctx : Type) where
  | encVec (v : CKKSEncryptedVector Ct Ctx)
  | nonEncVec (tag : String)
deriving DecidableEq, Repr

/-- The value returned by `CKKSPrivateKey.decrypt`: a bare scalar when the
decrypted sequence has length 1, otherwise the full sequence. -/
inductive Decrypted where
  | scalar (x : Rat)
  | vector (xs : List Rat)
deriving DecidableEq, Repr

namespace CKKSPrivateKey

variable {Ct Ctx Sk Plain Cb : Type}

/-- `CKKSPrivateKey.decrypt`: raises `ValueError("encrypted_vector should be
a CKKSEncryptedVector")` (the spec's `TypeMismatchError`) unless the argument
is a `CKKSEncryptedVector`; otherwise decrypts the wrapped tenseal vector
with this key's secret key and returns `decrypted_vector[0]` when
`len(decrypted_vector) == 1` (the `[x]` match arm) and the whole sequence
otherwise. -/
def decrypt (B : Backend Ct Ctx Sk Plain Cb) (self : CKKSPrivateKey Ctx)
    (encrypted_vector : DecryptArg Ct Ctx) : Except PyError Decrypted :=
  match encrypted_vector with
  | .nonEncVec _ => .error (.valueError "encrypted_vector should be a CKKSEncryptedVector")
  | .encVec v =>
    match B.decryptVec v.encrypted_vector (B.secret_key self.context) with
    | [x] => .ok (.scalar x)
    | decrypted_vector => .ok (.vector decrypted_vector)

/-- `CKKSPrivateKey.__getstate__`: context serialized with
`save_public_key=False, save_secret_key=True, save_relin_keys=True,
save_galois_keys=False`. -/
def __getstate__ (self : CKKSPrivateKey Ctx) : CtxBytes Ctx :=
  Context.serialize self.context false true true false

end CKKSPrivateKey

/-- The part of the backend used by `CKKSKeypair.generate_keypair`:
`ts.context(ts.SCHEME_TYPE.CKKS, poly_modulus_degree=…,
coeff_mod_bit_sizes=…)`, the `global_scale` setter, `context.copy()` and
`context.make_context_public()`. -/
structure KeyBackend (Ctx : Type) where
  ts_context : Option Nat → Option (List Nat) → Ctx
  set_global_scale : Ctx → Nat → Ctx
  copy : Ctx → Ctx
  make_context_public : Ctx → Ctx

namespace CKKSKeypair

variable {Ctx : Type}

/-- `CKKSKeypair.generate_keypair`: the fixed defaults (ring dimension 8192,
modulus chain [60, 40, 40, 60]) are substituted only when both
`poly_modulus_degree` and `coeff_mod_bit_sizes` are `None`; the (possibly
still `None`) parameters are then passed to backend context creation, the
global scale is set (default `2 ** 40` at the Python signature), the private
key takes `context.copy()` made before the original context is stripped to
public form, and the public key takes the stripped context. -/
def generate_keypair (KB : KeyBackend Ctx) (poly_modulus_degree : Option Nat)
    (coeff_mod_bit_sizes : Option (List Nat)) (global_scale : Nat) :
    CKKSPublicKey Ctx × CKKSPrivateKey Ctx :=
  let (poly_modulus_degree, coeff_mod_bit_sizes) :=
    if poly_modulus_degree = none ∧ coeff_mod_bit_sizes = none then
      (some 8192, some [60, 40, 40, 60])
    else
      (poly_modulus_degree, coeff_mod_bit_sizes)
  let context :=
    KB.set_global_scale (KB.ts_context poly_modulus_degree coeff_mod_bit_sizes) global_scale
  let private_key := CKKSPrivateKey.mk (KB.copy context)
  let public_context := KB.make_context_public context
  let public_key := CKKSPublicKey.mk public_context
  (public_key, private_key)

end CKKSKeypair

/-- Equality of `Except` values is decidable when it is on both sides;
used to evaluate the embedded operations on concrete inputs. -/
instance {ε α : Type} [DecidableEq ε] [DecidableEq α] : DecidableEq (Except ε α) := fun a b =>
  match a, b with
  | .ok x, .ok y =>
    if h : x = y then isTrue (by rw [h]) else isFalse (fun hh => h (Except.ok.inj hh))
  | .ok _, .error _ => isFalse (fun hh => Except.noConfusion hh)
  | .error _, .ok _ => isFalse (fun hh => Except.noConfusion hh)
  | .error x, .error y =>
    if h : x = y then isTrue (by rw [h]) else isFalse (fun hh => h (Except.error.inj hh))

/-- A concrete everything-succeeds backend over integer "ciphertexts"
(`Ct = Int`, trivial context and secret key, integer plaintext operands,
integer ciphertext bytes), used to evaluate the operations on concrete
inputs. -/
def demoBackend : Backend Int Unit Unit Int Int where
  addCC x y := .ok (x + y)
  addCP x p := .ok (x + p)
  subCC x y := .ok (x - y)
  subCP x p := .ok (x - p)
  subPC p x := .ok (p - x)
  mulCC x y := .ok (x * y)
  mulCP x p := .ok (x * p)
  ckks_vector _ ns := .ok (ns.length : Int)
  secret_key _ := ()
  decryptVec c _ := if c = 7 then [3] else [1, 2]
  serializeCt c := c
  ckks_vector_from _ b := b
  context_from _ := ()

/-- A concrete backend whose ciphertext-ciphertext addition and subtraction
raise the transparent-ciphertext `RuntimeError` on the operand pair
`(10, 20)` and an unrelated exception on the pair `(11, 21)`, succeeding
elsewhere; encryption of the zero vector yields the ciphertext `1`. -/
def faultBackend : Backend Int Unit Unit Int Int where
  addCC x y :=
    if x = 10 ∧ y = 20 then .error (.runtimeError "result ciphertext is transparent")
    else if x = 11 ∧ y = 21 then .error (.typeError "bad operand")
    else .ok (x + y)
  addCP x p := .ok (x + p)
  subCC x y :=
    if x = 10 ∧ y = 20 then .error (.runtimeError "result ciphertext is transparent")
    else if x = 11 ∧ y = 21 then .error (.valueError "some other failure")
    else .ok (x - y)
  subCP x p := .ok (x - p)
  subPC p x := .ok (p - x)
  mulCC x y := .ok (x * y)
  mulCP x p := .ok (x * p)
  ckks_vector _ _ := .ok 1
  secret_key _ := ()
  decryptVec c _ := [(c : Rat)]
  serializeCt c := c
  ckks_vector_from _ b := b
  context_from _ := ()

/-- A concrete backend whose multiplications always fail with the
level-exhaustion `ValueError` logged by `__mul__` (`Scale out of bound`),
as the tenseal backend does once the modulus chain is consumed. -/
def exhaustedBackend : Backend Int Unit Unit Int Int where
  addCC x y := .ok (x + y)
  addCP x p := .ok (x + p)
  subCC x y := .ok (x - y)
  subCP x p := .ok (x - p)
  subPC p x := .ok (p - x)
  mulCC _ _ := .error (.valueError "scale out of bound")
  mulCP _ _ := .error (.valueError "scale out of bound")
  ckks_vector _ _ := .ok 0
  secret_key _ := ()
  decryptVec c _ := [(c : Rat)]
  serializeCt c := c
  ckks_vector_from _ b := b
  context_from _ := ()

section ArithmeticLemmas

variable {Ct Ctx Sk Plain Cb : Type}

/-- The transparent-ciphertext fault is the only exception recovered by
`__add__`; on it the recovery chain runs. -/
lemma add_transparent_recovery (B : Backend Ct Ctx Sk Plain Cb)
    (a b : CKKSEncryptedVector Ct Ctx) (z t v : Ct)
    (h₁ : B.addCC a.encrypted_vector b.encrypted_vector =
      .error (.runtimeError "result ciphertext is transparent"))
    (h₂ : B.ckks_vector b.context [⟨0, 0⟩] = .ok z)
    (h₃ : B.addCC b.encrypted_vector z = .ok t)
    (h₄ : B.addCC a.encrypted_vector t = .ok v) :
    CKKSEncryptedVector.__add__ B a (.enc b) = .ok { a with encrypted_vector := v } := by
  simp [CKKSEncryptedVector.__add__, h₁, h₂, h₃, h₄, PyError.isRuntimeError,
    CKKSEncryptedVector.is_transparent_ciphertext_error, PyError.pyStr]

/-- Any exception from ciphertext-ciphertext addition other than the
transparent-ciphertext fault is re-raised unchanged by `__add__`. -/
lemma add_reraise (B : Backend Ct Ctx Sk Plain Cb)
    (a b : CKKSEncryptedVector Ct Ctx) (e : PyError)
    (h : B.addCC a.encrypted_vector b.encrypted_vector = .error e)
    (he : e ≠ .runtimeError "result ciphertext is transparent") :
    CKKSEncryptedVector.__add__ B a (.enc b) = .error e := by
  cases e with
  | runtimeError msg =>
    have hm : msg ≠ "result ciphertext is transparent" := by
      intro hh
      exact he (by rw [hh])
    simp [CKKSEncryptedVector.__add__, h, PyError.isRuntimeError,
      CKKSEncryptedVector.is_transparent_ciphertext_error, PyError.pyStr, hm]
  | valueError msg =>
    simp [CKKSEncryptedVector.__add__, h, PyError.isRuntimeError]
  | typeError msg =>
    simp [CKKSEncryptedVector.__add__, h, PyError.isRuntimeError]
  | noiseBudgetExhausted msg =>
    simp [CKKSEncryptedVector.__add__, h, PyError.isRuntimeError]

/-- Transparent-ciphertext recovery for `__sub__`:
`a - (b + encrypt_zero(b.context))`. -/
lemma sub_transparent_recovery (B : Backend Ct Ctx Sk Plain Cb)
    (a b : CKKSEncryptedVector Ct Ctx) (z t v : Ct)
    (h₁ : B.subCC a.encrypted_vector b.encrypted_vector =
      .error (.runtimeError "result ciphertext is transparent"))
    (h₂ : B.ckks_vector b.context [⟨0, 0⟩] = .ok z)
    (h₃ : B.addCC b.encrypted_vector z = .ok t)
    (h₄ : B.subCC a.encrypted_vector t = .ok v) :
    CKKSEncryptedVector.__sub__ B a (.enc b) = .ok { a with encrypted_vector := v } := by
  simp [CKKSEncryptedVector.__sub__, h₁, h₂, h₃, h₄, PyError.isRuntimeError,
    CKKSEncryptedVector.is_transparent_ciphertext_error, PyError.pyStr]

/-- Any exception from ciphertext-ciphertext subtraction other than the
transparent-ciphertext fault is re-raised unchanged by `__sub__`. -/
lemma sub_reraise (B : Backend Ct Ctx Sk Plain Cb)
    (a b : CKKSEncryptedVector Ct Ctx) (e : PyError)
    (h : B.subCC a.encrypted_vector b.encrypted_vector = .error e)
    (he : e ≠ .runtimeError "result ciphertext is transparent") :
    CKKSEncryptedVector.__sub__ B a (.enc b) = .error e := by
  cases e with
  | runtimeError msg =>
    have hm : msg ≠ "result ciphertext is transparent" := by
      intro hh
      exact he (by rw [hh])
    simp [CKKSEncryptedVector.__sub__, h, PyError.isRuntimeError,
      CKKSEncryptedVector.is_transparent_ciphertext_error, PyError.pyStr, hm]
  | valueError msg =>
    simp [CKKSEncryptedVector.__sub__, h, PyError.isRuntimeError]
  | typeError msg =>
    simp [CKKSEncryptedVector.__sub__, h, PyError.isRuntimeError]
  | noiseBudgetExhausted msg =>
    simp [CKKSEncryptedVector.__sub__, h, PyError.isRuntimeError]

/-- Every successful exit of `__add__` keeps `self`'s context and depth:
only the `__encrypted_vector` field is reassigned. -/
lemma add_ok_shape (B : Backend Ct Ctx Sk Plain Cb)
    (a r : CKKSEncryptedVector Ct Ctx) (o : Operand Ct Ctx Plain)
    (h : CKKSEncryptedVector.__add__ B a o = .ok r) :
    r.context = a.context ∧ r.depth = a.depth := by
  cases o <;> simp only [CKKSEncryptedVector.__add__] at h <;>
    (repeat' split at h) <;>
    first
      | (cases h; exact ⟨rfl, rfl⟩)
      | simp at h

/-- Every successful exit of `__sub__` keeps `self`'s context and depth. -/
lemma sub_ok_shape (B : Backend Ct Ctx Sk Plain Cb)
    (a r : CKKSEncryptedVector Ct Ctx) (o : Operand Ct Ctx Plain)
    (h : CKKSEncryptedVector.__sub__ B a o = .ok r) :
    r.context = a.context ∧ r.depth = a.depth := by
  cases o <;> simp only [CKKSEncryptedVector.__sub__] at h <;>
    (repeat' split at h) <;>
    first
      | (cases h; exact ⟨rfl, rfl⟩)
      | simp at h

/-- A successful `__mul__` yields exactly the freshly constructed vector
with `self`'s context and `self.depth + 1`. -/
lemma mul_ok_shape (B : Backend Ct Ctx Sk Plain Cb)
    (a r : CKKSEncryptedVector Ct Ctx) (o : Operand Ct Ctx Plain)
    (h : CKKSEncryptedVector.__mul__ B a o = .ok r) :
    r.context = a.context ∧ r.depth = a.depth + 1 := by
  cases o <;>
    simp only [CKKSEncryptedVector.__mul__, CKKSEncryptedVector.mulBackendResult] at h <;>
    (repeat' split at h) <;>
    first
      | (cases h; exact ⟨rfl, rfl⟩)
      | simp at h

/-- Every successful exit of `__rsub__` keeps `self`'s context and depth
and only reassigns the ciphertext field. -/
lemma rsub_ok_shape (B : Backend Ct Ctx Sk Plain Cb)
    (a r : CKKSEncryptedVector Ct Ctx) (o : Operand Ct Ctx Plain)
    (h : CKKSEncryptedVector.__rsub__ B a o = .ok r) :
    r.context = a.context ∧ r.depth = a.depth := by
  cases o <;> simp only [CKKSEncryptedVector.__rsub__] at h <;>
    (repeat' split at h) <;>
    first
      | (cases h; exact ⟨rfl, rfl⟩)
      | simp at h

end ArithmeticLemmas

section HeapLemmas

variable {Ct Ctx Sk Plain Cb : Type}

/-- A successful `addRef` writes the updated object back into `a`'s slot
and returns `a`'s own reference. -/
lemma addRef_ok_shape (B : Backend Ct Ctx Sk Plain Cb) (σ : Store Ct Ctx)
    (ra : Ref) (o : PyOperand Plain) (σ' : Store Ct Ctx) (r' : Ref)
    (h : CKKSEncryptedVector.addRef B σ ra o = .ok (σ', r')) :
    r' = ra ∧ ∃ a2, σ' = σ.set ra a2 := by
  simp only [CKKSEncryptedVector.addRef] at h
  repeat' split at h
  all_goals
    first
      | (injection h with h'
         injection h' with hσ hr
         exact ⟨hr.symm, _, hσ.symm⟩)
      | simp at h

/-- A successful `subRef` writes the updated object back into `a`'s slot
and returns `a`'s own reference. -/
lemma subRef_ok_shape (B : Backend Ct Ctx Sk Plain Cb) (σ : Store Ct Ctx)
    (ra : Ref) (o : PyOperand Plain) (σ' : Store Ct Ctx) (r' : Ref)
    (h : CKKSEncryptedVector.subRef B σ ra o = .ok (σ', r')) :
    r' = ra ∧ ∃ a2, σ' = σ.set ra a2 := by
  simp only [CKKSEncryptedVector.subRef] at h
  repeat' split at h
  all_goals
    first
      | (injection h with h'
         injection h' with hσ hr
         exact ⟨hr.symm, _, hσ.symm⟩)
      | simp at h

/-- A successful `mulRef` appends a freshly constructed object to the heap
and returns its fresh reference; no existing slot is written. -/
lemma mulRef_ok_shape (B : Backend Ct Ctx Sk Plain Cb) (σ : Store Ct Ctx)
    (ra : Ref) (o : PyOperand Plain) (σ' : Store Ct Ctx) (r' : Ref)
    (h : CKKSEncryptedVector.mulRef B σ ra o = .ok (σ', r')) :
    r' = σ.length ∧ ∃ c, σ' = σ ++ [c] := by
  simp only [CKKSEncryptedVector.mulRef] at h
  repeat' split at h
  all_goals
    first
      | (injection h with h'
         injection h' with hσ hr
         exact ⟨hr.symm, _, hσ.symm⟩)
      | simp at h

end HeapLemmas

/-- C1: for ciphertext-ciphertext add and subtract, if the backend raises
the transparent-ciphertext fault (a `RuntimeError` whose text is `result
ciphertext is transparent`), the operation recovers by combining `a`'s
ciphertext with `b`'s ciphertext plus a freshly encrypted zero under `b`'s
context, and the fault is not surfaced to the caller; any backend fault
whose identity is not the transparent-ciphertext fault is re-raised
unchanged. -/
theorem C1_add_sub_transparent_fault_policy {Ct Ctx Sk Plain Cb : Type}
    (B : Backend Ct Ctx Sk Plain Cb)
    (a₁ b₁ a₂ b₂ a₃ b₃ a₄ b₄ : CKKSEncryptedVector Ct Ctx)
    (z₁ t₁ v₁ z₃ t₃ v₃ : Ct) (e₂ e₄ : PyError)
    (h₁ : B.addCC a₁.encrypted_vector b₁.encrypted_vector =
      .error (.runtimeError "result ciphertext is transparent"))
    (h₂ : B.ckks_vector b₁.context [⟨0, 0⟩] = .ok z₁)
    (h₃ : B.addCC b₁.encrypted_vector z₁ = .ok t₁)
    (h₄ : B.addCC a₁.encrypted_vector t₁ = .ok v₁)
    (h₅ : B.addCC a₂.encrypted_vector b₂.encrypted_vector = .error e₂)
    (h₆ : e₂ ≠ .runtimeError "result ciphertext is transparent")
    (h₇ : B.subCC a₃.encrypted_vector b₃.encrypted_vector =
      .error (.runtimeError "result ciphertext is transparent"))
    (h₈ : B.ckks_vector b₃.context [⟨0, 0⟩] = .ok z₃)
    (h₉ : B.addCC b₃.encrypted_vector z₃ = .ok t₃)
    (h₁₀ : B.subCC a₃.encrypted_vector t₃ = .ok v₃)
    (h₁₁ : B.subCC a₄.encrypted_vector b₄.encrypted_vector = .error e₄)
    (h₁₂ : e₄ ≠ .runtimeError "result ciphertext is transparent") :
    CKKSEncryptedVector.__add__ B a₁ (.enc b₁) = .ok { a₁ with encrypted_vector := v₁ } ∧
    CKKSEncryptedVector.__add__ B a₂ (.enc b₂) = .error e₂ ∧
    CKKSEncryptedVector.__sub__ B a₃ (.enc b₃) = .ok { a₃ with encrypted_vector := v₃ } ∧
    CKKSEncryptedVector.__sub__ B a₄ (.enc b₄) = .error e₄ :=
  ⟨add_transparent_recovery B a₁ b₁ z₁ t₁ v₁ h₁ h₂ h₃ h₄,
   add_reraise B a₂ b₂ e₂ h₅ h₆,
   sub_transparent_recovery B a₃ b₃ z₃ t₃ v₃ h₇ h₈ h₉ h₁₀,
   sub_reraise B a₄ b₄ e₄ h₁₁ h₁₂⟩

/-- Witness for C1 on the fault-injecting backend: the transparent fault on
`(10, 20)` is recovered into a success, the unrelated faults on `(11, 21)`
are re-raised unchanged. -/
theorem C1_witness :
    CKKSEncryptedVector.__add__ faultBackend ⟨10, (), 0⟩ (.enc ⟨20, (), 0⟩) =
      .ok ⟨31, (), 0⟩ ∧
    CKKSEncryptedVector.__add__ faultBackend ⟨11, (), 0⟩ (.enc ⟨21, (), 0⟩) =
      .error (.typeError "bad operand") ∧
    CKKSEncryptedVector.__sub__ faultBackend ⟨10, (), 0⟩ (.enc ⟨20, (), 0⟩) =
      .ok ⟨-11, (), 0⟩ ∧
    CKKSEncryptedVector.__sub__ faultBackend ⟨11, (), 0⟩ (.enc ⟨21, (), 0⟩) =
      .error (.valueError "some other failure") :=
  C1_add_sub_transparent_fault_policy faultBackend
    ⟨10, (), 0⟩ ⟨20, (), 0⟩ ⟨11, (), 0⟩ ⟨21, (), 0⟩
    ⟨10, (), 0⟩ ⟨20, (), 0⟩ ⟨11, (), 0⟩ ⟨21, (), 0⟩
    1 21 31 1 21 (-11) (.typeError "bad operand") (.valueError "some other failure")
    (by decide) (by decide) (by decide) (by decide) (by decide) (by decide)
    (by decide) (by decide) (by decide) (by decide) (by decide) (by decide)

/-- C2: the depth of a successful multiply is the left operand's depth plus
one, whether the right operand is a ciphertext or a plaintext, while
successful add and subtract leave the depth equal to the left operand's
prior depth. -/
theorem C2_depth_monotonicity {Ct Ctx Sk Plain Cb : Type}
    (B : Backend Ct Ctx Sk Plain Cb)
    (a₁ a₂ a₃ r₁ r₂ r₃ : CKKSEncryptedVector Ct Ctx)
    (o₁ o₂ o₃ : Operand Ct Ctx Plain)
    (h₁ : CKKSEncryptedVector.__mul__ B a₁ o₁ = .ok r₁)
    (h₂ : CKKSEncryptedVector.__add__ B a₂ o₂ = .ok r₂)
    (h₃ : CKKSEncryptedVector.__sub__ B a₃ o₃ = .ok r₃) :
    r₁.depth = a₁.depth + 1 ∧ r₂.depth = a₂.depth ∧ r₃.depth = a₃.depth :=
  ⟨(mul_ok_shape B a₁ r₁ o₁ h₁).2,
   (add_ok_shape B a₂ r₂ o₂ h₂).2,
   (sub_ok_shape B a₃ r₃ o₃ h₃).2⟩

/-- Witness for C2: a plaintext multiply takes depth 3 to 4, a ciphertext
add and subtract keep depth 3. -/
theorem C2_witness :
    (⟨8, (), 4⟩ : CKKSEncryptedVector Int Unit).depth =
      (⟨2, (), 3⟩ : CKKSEncryptedVector Int Unit).depth + 1 ∧
    (⟨7, (), 3⟩ : CKKSEncryptedVector Int Unit).depth =
      (⟨2, (), 3⟩ : CKKSEncryptedVector Int Unit).depth ∧
    (⟨-3, (), 3⟩ : CKKSEncryptedVector Int Unit).depth =
      (⟨2, (), 3⟩ : CKKSEncryptedVector Int Unit).depth :=
  C2_depth_monotonicity demoBackend
    ⟨2, (), 3⟩ ⟨2, (), 3⟩ ⟨2, (), 3⟩ ⟨8, (), 4⟩ ⟨7, (), 3⟩ ⟨-3, (), 3⟩
    (.plain 4) (.enc ⟨5, (), 7⟩) (.enc ⟨5, (), 7⟩)
    (by decide) (by decide) (by decide)

/-- C3 is refuted: when the backend fails multiplication with the
level-exhaustion `ValueError` (`scale out of bound`, the message the source
logs in this very path), `__mul__` re-raises that `ValueError` itself; the
caller never receives a typed `NoiseBudgetExhausted` failure. -/
theorem C3_counterexample :
    CKKSEncryptedVector.__mul__ exhaustedBackend ⟨1, (), 0⟩ (.enc ⟨2, (), 0⟩) =
      .error (.valueError "scale out of bound") ∧
    ¬ ∃ msg, CKKSEncryptedVector.__mul__ exhaustedBackend ⟨1, (), 0⟩ (.enc ⟨2, (), 0⟩) =
      .error (.noiseBudgetExhausted msg) := by
  constructor
  · decide
  · rintro ⟨msg, hmsg⟩
    rw [show CKKSEncryptedVector.__mul__ exhaustedBackend ⟨1, (), 0⟩ (.enc ⟨2, (), 0⟩) =
          .error (.valueError "scale out of bound") from by decide] at hmsg
    simp at hmsg

/-- C3 (amended): every backend error during multiply — including the
level-exhaustion `ValueError`, which is additionally logged at debug
level — surfaces to the caller unchanged; no conversion to a typed
`NoiseBudgetExhausted` failure takes place. -/
theorem C3_amended_mul_error_passthrough {Ct Ctx Sk Plain Cb : Type}
    (B : Backend Ct Ctx Sk Plain Cb) (a : CKKSEncryptedVector Ct Ctx)
    (o : Operand Ct Ctx Plain) (e : PyError)
    (h : CKKSEncryptedVector.mulBackendResult B a o = .error e) :
    CKKSEncryptedVector.__mul__ B a o = .error e := by
  unfold CKKSEncryptedVector.__mul__
  rw [h]

/-- Witness for the amended C3 at the exhausted backend. -/
theorem C3_amended_witness :
    CKKSEncryptedVector.__mul__ exhaustedBackend ⟨3, (), 2⟩ (.enc ⟨4, (), 0⟩) =
      .error (.valueError "scale out of bound") :=
  C3_amended_mul_error_passthrough exhaustedBackend ⟨3, (), 2⟩ (.enc ⟨4, (), 0⟩)
    (.valueError "scale out of bound") (by decide)

/-- C4 is refuted: reverse-subtracting the plaintext 2 from the single
heap object `⟨5, (), 0⟩` yields the original reference 0 with that object
overwritten in place by the result −3, and no freshly allocated object
exists whose creation would leave the original slot unchanged. -/
theorem C4_counterexample :
    CKKSEncryptedVector.rsubRef demoBackend [⟨5, (), 0⟩] 0 (.plain 2) =
      .ok ([⟨-3, (), 0⟩], 0) ∧
    ¬ ∃ p : Store Int Unit × Ref,
        CKKSEncryptedVector.rsubRef demoBackend [⟨5, (), 0⟩] 0 (.plain 2) = .ok p ∧
        p.2 ≠ 0 ∧ p.1[0]? = some ⟨5, (), 0⟩ := by
  constructor
  · decide
  · rintro ⟨p, hp, hr, _⟩
    rw [show CKKSEncryptedVector.rsubRef demoBackend [⟨5, (), 0⟩] 0 (.plain 2) =
          .ok ([⟨-3, (), 0⟩], 0) from by decide] at hp
    cases Except.ok.inj hp
    exact hr rfl

/-- C4 (amended): reverse-subtract(a, b) computes b's ciphertext minus a's
ciphertext (or plaintext b minus a's ciphertext), stores the result into
`a` in place, and returns the very same instance `a`. -/
theorem C4_amended_rsub_in_place {Ct Ctx Sk Plain Cb : Type}
    (B : Backend Ct Ctx Sk Plain Cb) (σ : Store Ct Ctx) (ra rb : Ref)
    (a b : CKKSEncryptedVector Ct Ctx) (p : Plain) (v w : Ct)
    (ha : σ[ra]? = some a) (hb : σ[rb]? = some b)
    (hv : B.subCC b.encrypted_vector a.encrypted_vector = .ok v)
    (hw : B.subPC p a.encrypted_vector = .ok w) :
    CKKSEncryptedVector.rsubRef B σ ra (.ref rb) =
      .ok (σ.set ra { a with encrypted_vector := v }, ra) ∧
    CKKSEncryptedVector.rsubRef B σ ra (.plain p) =
      .ok (σ.set ra { a with encrypted_vector := w }, ra) := by
  constructor
  · simp [CKKSEncryptedVector.rsubRef, CKKSEncryptedVector.getOperand, ha, hb,
      CKKSEncryptedVector.__rsub__, hv]
  · simp [CKKSEncryptedVector.rsubRef, CKKSEncryptedVector.getOperand, ha,
      CKKSEncryptedVector.__rsub__, hw]

/-- Witness for the amended C4: on a two-object heap, reverse-subtract by
reference computes `9 - 5` into slot 0 and returns reference 0; by
plaintext it computes `2 - 5` into slot 0 and returns reference 0. -/
theorem C4_amended_witness :
    CKKSEncryptedVector.rsubRef demoBackend [⟨5, (), 0⟩, ⟨9, (), 1⟩] 0 (.ref 1) =
      .ok ([⟨4, (), 0⟩, ⟨9, (), 1⟩], 0) ∧
    CKKSEncryptedVector.rsubRef demoBackend [⟨5, (), 0⟩, ⟨9, (), 1⟩] 0 (.plain 2) =
      .ok ([⟨-3, (), 0⟩, ⟨9, (), 1⟩], 0) :=
  C4_amended_rsub_in_place demoBackend [⟨5, (), 0⟩, ⟨9, (), 1⟩] 0 1
    ⟨5, (), 0⟩ ⟨9, (), 1⟩ 2 4 (-3)
    (by decide) (by decide) (by decide) (by decide)

/-- C5: successful add and subtract write the updated object back into
`a`'s own heap slot and return the very same reference (so every other
holder of that reference observes the new value), touching no other slot;
a successful multiply returns a freshly allocated reference, unoccupied
before the call, and leaves every pre-existing object — in particular both
operands' ciphertexts and depths — unchanged. -/
theorem C5_mutation_asymmetry {Ct Ctx Sk Plain Cb : Type}
    (B : Backend Ct Ctx Sk Plain Cb) (σ : Store Ct Ctx) (ra : Ref)
    (o₁ o₂ o₃ : PyOperand Plain) (σ₁ σ₂ σ₃ : Store Ct Ctx) (r₁ r₂ r₃ : Ref)
    (h₁ : CKKSEncryptedVector.addRef B σ ra o₁ = .ok (σ₁, r₁))
    (h₂ : CKKSEncryptedVector.subRef B σ ra o₂ = .ok (σ₂, r₂))
    (h₃ : CKKSEncryptedVector.mulRef B σ ra o₃ = .ok (σ₃, r₃)) :
    (r₁ = ra ∧ (∃ a2, σ₁ = σ.set ra a2) ∧ ∀ r, r ≠ ra → σ₁[r]? = σ[r]?) ∧
    (r₂ = ra ∧ (∃ a2, σ₂ = σ.set ra a2) ∧ ∀ r, r ≠ ra → σ₂[r]? = σ[r]?) ∧
    (r₃ = σ.length ∧ σ[r₃]? = none ∧
      (∃ c, σ₃ = σ ++ [c]) ∧ ∀ r, r < σ.length → σ₃[r]? = σ[r]?) := by
  obtain ⟨hr₁, a₁, hσ₁⟩ := addRef_ok_shape B σ ra o₁ σ₁ r₁ h₁
  obtain ⟨hr₂, a₂, hσ₂⟩ := subRef_ok_shape B σ ra o₂ σ₂ r₂ h₂
  obtain ⟨hr₃, c₃, hσ₃⟩ := mulRef_ok_shape B σ ra o₃ σ₃ r₃ h₃
  refine ⟨⟨hr₁, ⟨a₁, hσ₁⟩, ?_⟩, ⟨hr₂, ⟨a₂, hσ₂⟩, ?_⟩,
    ⟨hr₃, ?_, ⟨c₃, hσ₃⟩, ?_⟩⟩
  · intro r hr
    rw [hσ₁]
    exact List.getElem?_set_ne (Ne.symm hr)
  · intro r hr
    rw [hσ₂]
    exact List.getElem?_set_ne (Ne.symm hr)
  · rw [hr₃]
    exact List.getElem?_eq_none (Nat.le_refl _)
  · intro r hr
    rw [hσ₃]
    exact List.getElem?_append_left hr

/-- Witness for C5 on a two-object heap: add and subtract overwrite slot 0
and return reference 0; multiply appends the product at the fresh
reference 2 and leaves slots 0 and 1 as they were. -/
theorem C5_witness :
    ((0 : Ref) = 0 ∧
      (∃ a2, [⟨7, (), 3⟩, ⟨5, (), 7⟩] =
        ([⟨2, (), 3⟩, ⟨5, (), 7⟩] : Store Int Unit).set 0 a2) ∧
      ∀ r, r ≠ 0 →
        ([⟨7, (), 3⟩, ⟨5, (), 7⟩] : Store Int Unit)[r]? =
          ([⟨2, (), 3⟩, ⟨5, (), 7⟩] : Store Int Unit)[r]?) ∧
    ((0 : Ref) = 0 ∧
      (∃ a2, [⟨-3, (), 3⟩, ⟨5, (), 7⟩] =
        ([⟨2, (), 3⟩, ⟨5, (), 7⟩] : Store Int Unit).set 0 a2) ∧
      ∀ r, r ≠ 0 →
        ([⟨-3, (), 3⟩, ⟨5, (), 7⟩] : Store Int Unit)[r]? =
          ([⟨2, (), 3⟩, ⟨5, (), 7⟩] : Store Int Unit)[r]?) ∧
    ((2 : Ref) = ([⟨2, (), 3⟩, ⟨5, (), 7⟩] : Store Int Unit).length ∧
      ([⟨2, (), 3⟩, ⟨5, (), 7⟩] : Store Int Unit)[(2 : Ref)]? = none ∧
      (∃ c, [⟨2, (), 3⟩, ⟨5, (), 7⟩, ⟨10, (), 4⟩] =
        ([⟨2, (), 3⟩, ⟨5, (), 7⟩] : Store Int Unit) ++ [c]) ∧
      ∀ r, r < ([⟨2, (), 3⟩, ⟨5, (), 7⟩] : Store Int Unit).length →
        ([⟨2, (), 3⟩, ⟨5, (), 7⟩, ⟨10, (), 4⟩] : Store Int Unit)[r]? =
          ([⟨2, (), 3⟩, ⟨5, (), 7⟩] : Store Int Unit)[r]?) :=
  C5_mutation_asymmetry demoBackend [⟨2, (), 3⟩, ⟨5, (), 7⟩] 0
    (.ref 1) (.ref 1) (.ref 1)
    [⟨7, (), 3⟩, ⟨5, (), 7⟩] [⟨-3, (), 3⟩, ⟨5, (), 7⟩]
    [⟨2, (), 3⟩, ⟨5, (), 7⟩, ⟨10, (), 4⟩] 0 0 2
    (by decide) (by decide) (by decide)

/-- C6: encrypt rejects every input containing a non-real component —
a complex scalar or a sequence with a complex entry — with the validation
`ValueError` (the spec's `ValidationError`); every accepted scalar is first
normalized to a length-1 sequence, and every accepted input produces a
depth-0 vector bound to this key's public context. -/
theorem C6_encrypt_validation {Ct Ctx Sk Plain Cb : Type}
    (B : Backend Ct Ctx Sk Plain Cb) (pk : CKKSPublicKey Ctx)
    (n m : PyNum) (ns ms : List PyNum) (c c' : Ct)
    (h₁ : n.im ≠ 0)
    (h₂ : ∃ x ∈ ns, x.im ≠ 0)
    (h₃ : m.im = 0)
    (h₄ : ∀ x ∈ ms, x.im = 0)
    (h₅ : B.ckks_vector pk.public_context [m] = .ok c)
    (h₆ : B.ckks_vector pk.public_context ms = .ok c') :
    CKKSPublicKey.encrypt B pk (.scalar n) =
      .error (.valueError "values should only contain real number") ∧
    CKKSPublicKey.encrypt B pk (.vector ns) =
      .error (.valueError "values should only contain real number") ∧
    CKKSPublicKey.encrypt B pk (.scalar m) = .ok ⟨c, pk.public_context, 0⟩ ∧
    CKKSPublicKey.encrypt B pk (.vector ms) = .ok ⟨c', pk.public_context, 0⟩ := by
  refine ⟨?_, ?_, ?_, ?_⟩
  · simp [CKKSPublicKey.encrypt, CKKSPublicKey.__only_real_number, h₁]
  · obtain ⟨x, hx, hxim⟩ := h₂
    have hall : CKKSPublicKey.__only_real_number ns = false := by
      simp only [CKKSPublicKey.__only_real_number, List.all_eq_false]
      exact ⟨x, hx, by simp [hxim]⟩
    simp [CKKSPublicKey.encrypt, hall]
  · simp [CKKSPublicKey.encrypt, CKKSPublicKey.__only_real_number, h₃, h₅]
  · have hall : CKKSPublicKey.__only_real_number ms = true := by
      simp only [CKKSPublicKey.__only_real_number, List.all_eq_true]
      intro x hx
      simp [h₄ x hx]
    simp [CKKSPublicKey.encrypt, hall, h₆]

/-- Witness for C6 on the demo backend: the non-real scalar `i` and the
sequence `[1, 2i]` are rejected, while the real scalar 3 and the sequence
`[1, 2]` encrypt to depth-0 vectors (the scalar via its length-1
normalization). -/
theorem C6_witness :
    CKKSPublicKey.encrypt demoBackend ⟨()⟩ (.scalar ⟨0, 1⟩) =
      .error (.valueError "values should only contain real number") ∧
    CKKSPublicKey.encrypt demoBackend ⟨()⟩ (.vector [⟨1, 0⟩, ⟨2, 1⟩]) =
      .error (.valueError "values should only contain real number") ∧
    CKKSPublicKey.encrypt demoBackend ⟨()⟩ (.scalar ⟨3, 0⟩) = .ok ⟨1, (), 0⟩ ∧
    CKKSPublicKey.encrypt demoBackend ⟨()⟩ (.vector [⟨1, 0⟩, ⟨2, 0⟩]) = .ok ⟨2, (), 0⟩ :=
  C6_encrypt_validation demoBackend ⟨()⟩ ⟨0, 1⟩ ⟨3, 0⟩ [⟨1, 0⟩, ⟨2, 1⟩] [⟨1, 0⟩, ⟨2, 0⟩] 1 2
    (by decide) (by decide) (by decide) (by decide) (by decide) (by decide)

/-- Every list whose length is not 1 is returned whole by the
scalar-vs-sequence match of `decrypt`. -/
lemma decrypt_vector_case {Ct Ctx Sk Plain Cb : Type}
    (B : Backend Ct Ctx Sk Plain Cb) (k : CKKSPrivateKey Ctx)
    (v : CKKSEncryptedVector Ct Ctx)
    (hd : (B.decryptVec v.encrypted_vector (B.secret_key k.context)).length ≠ 1) :
    CKKSPrivateKey.decrypt B k (.encVec v) =
      .ok (.vector (B.decryptVec v.encrypted_vector (B.secret_key k.context))) := by
  simp only [CKKSPrivateKey.decrypt]
  split
  · rename_i x heq
    rw [heq] at hd
    exact absurd rfl hd
  · rfl

/-- C7: decrypt fails with the typed mismatch error (the spec's
`TypeMismatchError`, raised as a `ValueError`) for every argument that is
not an EncryptedVector; for every EncryptedVector it returns a bare scalar
exactly when the decrypted sequence has length 1 and the full sequence
otherwise. -/
theorem C7_decrypt_shape {Ct Ctx Sk Plain Cb : Type}
    (B : Backend Ct Ctx Sk Plain Cb) (k : CKKSPrivateKey Ctx)
    (tag : String) (v₁ v₂ : CKKSEncryptedVector Ct Ctx) (x : Rat)
    (h₁ : B.decryptVec v₁.encrypted_vector (B.secret_key k.context) = [x])
    (h₂ : (B.decryptVec v₂.encrypted_vector (B.secret_key k.context)).length ≠ 1) :
    CKKSPrivateKey.decrypt B k (.nonEncVec tag) =
      .error (.valueError "encrypted_vector should be a CKKSEncryptedVector") ∧
    CKKSPrivateKey.decrypt B k (.encVec v₁) = .ok (.scalar x) ∧
    CKKSPrivateKey.decrypt B k (.encVec v₂) =
      .ok (.vector (B.decryptVec v₂.encrypted_vector (B.secret_key k.context))) := by
  refine ⟨rfl, ?_, decrypt_vector_case B k v₂ h₂⟩
  simp [CKKSPrivateKey.decrypt, h₁]

/-- Witness for C7 on the demo backend: a non-vector argument raises, a
length-1 decryption returns the bare scalar 3, a length-2 decryption
returns the sequence `[1, 2]`. -/
theorem C7_witness :
    CKKSPrivateKey.decrypt demoBackend ⟨()⟩ (.nonEncVec "a string") =
      .error (.valueError "encrypted_vector should be a CKKSEncryptedVector") ∧
    CKKSPrivateKey.decrypt demoBackend ⟨()⟩ (.encVec ⟨7, (), 0⟩) = .ok (.scalar 3) ∧
    CKKSPrivateKey.decrypt demoBackend ⟨()⟩ (.encVec ⟨8, (), 0⟩) =
      .ok (.vector (demoBackend.decryptVec 8 (demoBackend.secret_key ()))) :=
  C7_decrypt_shape demoBackend ⟨()⟩ "a string" ⟨7, (), 0⟩ ⟨8, (), 0⟩ 3
    (by decide) (by decide)

/-- C8: serialized PublicKey bytes carry the public key and relinearization
material but never the secret key or galois (rotation) keys; serialized
PrivateKey bytes carry the secret key and relinearization material but
never the public key or galois keys. -/
theorem C8_key_serialization_material {Ctx : Type}
    (pk : CKKSPublicKey Ctx) (sk : CKKSPrivateKey Ctx) :
    (CKKSPublicKey.__getstate__ pk).save_public_key = true ∧
    (CKKSPublicKey.__getstate__ pk).save_secret_key = false ∧
    (CKKSPublicKey.__getstate__ pk).save_relin_keys = true ∧
    (CKKSPublicKey.__getstate__ pk).save_galois_keys = false ∧
    (CKKSPrivateKey.__getstate__ sk).save_secret_key = true ∧
    (CKKSPrivateKey.__getstate__ sk).save_public_key = false ∧
    (CKKSPrivateKey.__getstate__ sk).save_relin_keys = true ∧
    (CKKSPrivateKey.__getstate__ sk).save_galois_keys = false :=
  ⟨rfl, rfl, rfl, rfl, rfl, rfl, rfl, rfl⟩

/-- C9: an EncryptedVector serializes to the triple of ciphertext bytes,
public-context bytes carrying no secret key, and the depth integer;
deserialization rehydrates the context first, then the ciphertext against
that context, and restores exactly the serialized depth, so the round trip
preserves depth. -/
theorem C9_encvec_serialization_roundtrip {Ct Ctx Sk Plain Cb : Type}
    (B : Backend Ct Ctx Sk Plain Cb) (v : CKKSEncryptedVector Ct Ctx)
    (eb : Cb) (cb : CtxBytes Ctx) (d : Nat) :
    CKKSEncryptedVector.__getstate__ B v =
      (B.serializeCt v.encrypted_vector,
       Context.serialize v.context true false true false,
       v.depth) ∧
    (CKKSEncryptedVector.__getstate__ B v).2.1.save_secret_key = false ∧
    CKKSEncryptedVector.__setstate__ B (eb, cb, d) =
      ⟨B.ckks_vector_from (B.context_from cb) eb, B.context_from cb, d⟩ ∧
    (CKKSEncryptedVector.__setstate__ B (CKKSEncryptedVector.__getstate__ B v)).depth =
      v.depth :=
  ⟨rfl, rfl, rfl, rfl⟩

/-- C10: the default parameter set (ring dimension 8192, modulus chain
[60, 40, 40, 60]) is substituted only when both `poly_modulus_degree` and
`coeff_mod_bit_sizes` are omitted; when exactly one is supplied the other
stays `None` and is passed as-is to backend context creation, and when both
are supplied both pass through unchanged. -/
theorem C10_default_parameter_substitution {Ctx : Type} (KB : KeyBackend Ctx)
    (p s : Nat) (c : List Nat) :
    CKKSKeypair.generate_keypair KB none none s =
      (let context :=
        KB.set_global_scale (KB.ts_context (some 8192) (some [60, 40, 40, 60])) s
       (CKKSPublicKey.mk (KB.make_context_public context),
        CKKSPrivateKey.mk (KB.copy context))) ∧
    CKKSKeypair.generate_keypair KB (some p) none s =
      (let context := KB.set_global_scale (KB.ts_context (some p) none) s
       (CKKSPublicKey.mk (KB.make_context_public context),
        CKKSPrivateKey.mk (KB.copy context))) ∧
    CKKSKeypair.generate_keypair KB none (some c) s =
      (let context := KB.set_global_scale (KB.ts_context none (some c)) s
       (CKKSPublicKey.mk (KB.make_context_public context),
        CKKSPrivateKey.mk (KB.copy context))) ∧
    CKKSKeypair.generate_keypair KB (some p) (some c) s =
      (let context := KB.set_global_scale (KB.ts_context (some p) (some c)) s
       (CKKSPublicKey.mk (KB.make_context_public context),
        CKKSPrivateKey.mk (KB.copy context))) :=
  ⟨rfl, rfl, rfl, rfl⟩

